import Mathlib

/-!
# maya-usd: shader attribute holder, proxy shape counters and registries

A shallow embedding of

* `lib/mayaUsd/ufe/UsdShaderAttributeHolder.cpp` (every member function),
* the inline members and data members of `lib/mayaUsd/nodes/proxyShapeBase.h`,
* the registries declared in `lib/mayaUsd/utils/layerMuting.h`.

The USD library, the UFE value type and the base class `UsdAttributeHolder`
are not part of these files.  Their operations are collected in the record
`Externals`; every theorem about the holder is stated for an arbitrary
`Externals`, i.e. for every behaviour of the base class and of USD.
-/

namespace MayaUsd

/-! ## Value types -/

/-- A `TfToken`, by its string. -/
abbrev TfToken := String

/-- An `SdfValueTypeName`, by its token. -/
abbrev SdfValueTypeName := String

/-- A `UsdTimeCode`.  Time codes are only passed around and compared for
equality, so they are represented by integers. -/
abbrev UsdTimeCode := Int

/-- A `VtValue`: either empty or holding a value of a named type. -/
inductive VtValue where
  | empty : VtValue
  | holding (typeName : String) (payload : String) : VtValue
deriving DecidableEq, Repr

/-- The member `VtValue::IsEmpty`. -/
def VtValue.IsEmpty : VtValue → Bool
  | .empty => true
  | .holding _ _ => false

/-- The call `VtValue::Get<TfToken>()`: the held token, or the default (empty)
token when the value does not hold a token. -/
def VtValue.GetToken : VtValue → TfToken
  | .holding "token" s => s
  | _ => ""

/-- A `Ufe::Value`: either empty or holding some datum. -/
inductive UfeValue where
  | empty : UfeValue
  | holding (payload : String) : UfeValue
deriving DecidableEq, Repr

/-- The call `Ufe::Value::safeGet<std::string>({})`. -/
def UfeValue.safeGetString : UfeValue → String
  | .empty => ""
  | .holding s => s

/-- The enumeration `UsdShadeAttributeType`. -/
inductive UsdShadeAttributeType where
  | Invalid
  | Input
  | Output
deriving DecidableEq, Repr

/-- A `UsdPrim` handle, by the path it remembers. -/
structure UsdPrim where
  path : String
deriving DecidableEq, Repr

/-- A `UsdAttribute` handle: the prim it was obtained from and its name.
Whether the attribute exists is a property of the stage, not of the handle. -/
structure UsdAttribute where
  prim : UsdPrim
  name : TfToken
deriving DecidableEq, Repr

/-- The member `UsdPrim::GetAttribute`. -/
def UsdPrim.GetAttribute (prim : UsdPrim) (name : TfToken) : UsdAttribute :=
  { prim := prim, name := name }

/-- The data of an `SdrShaderProperty` read by the holder. -/
structure SdrShaderProperty where
  /-- The accessor `GetName()`. -/
  name : TfToken
  /-- The accessor `GetType()`. -/
  type : TfToken
  /-- The first component of `GetTypeAsSdfType()`. -/
  sdfType : SdfValueTypeName
  /-- The accessor `GetHelp()`. -/
  help : String
  /-- The accessor `GetOptions()`. -/
  options : List (TfToken × TfToken)
deriving DecidableEq, Repr

/-- The static function `UsdShadeUtils::GetPrefixForAttributeType`. -/
def GetPrefixForAttributeType : UsdShadeAttributeType → String
  | .Input => "inputs:"
  | .Output => "outputs:"
  | .Invalid => ""

/-- The static function `UsdShadeUtils::GetFullName`. -/
def GetFullName (baseName : TfToken) (type : UsdShadeAttributeType) : TfToken :=
  GetPrefixForAttributeType type ++ baseName

/-- The token `SdfValueTypeNames->Matrix3d.GetAsToken()`. -/
def Matrix3dToken : TfToken := "matrix3d"

/-- The token `SdfValueTypeNames->Bool.GetAsToken()`. -/
def BoolToken : TfToken := "bool"

/-! ## Operations the holder calls but does not define -/

/-- Everything `UsdShaderAttributeHolder.cpp` calls and does not define: the
USD library, the helper `vtValueFromString`, the class `UsdShaderAttributeDef`
and the base class `UsdAttributeHolder` (written `_Base::` in the source).
The type `σ` is the state of the USD stage. -/
structure Externals (σ : Type) where
  /-- The preprocessor constant `PXR_VERSION`. -/
  PXR_VERSION : Nat
  /-- The token `MayaUsdMetadata->UIName` (mayaUsd/base/tokens.h). -/
  UIName : String
  /-- The test `usdPrim()` used as a condition. -/
  primIsValid : σ → UsdPrim → Bool
  /-- The read `usdPrim().GetAttribute(TfToken("info:id")).Get(&v)`: the value
  left in `v`. -/
  getInfoId : σ → UsdPrim → VtValue
  /-- The call `UsdShadeShader(prim).CreateInput(name, type).GetAttr()`. -/
  CreateInput : σ → UsdPrim → TfToken → SdfValueTypeName → σ × UsdAttribute
  /-- The call `UsdShadeShader(prim).CreateOutput(name, type).GetAttr()`. -/
  CreateOutput : σ → UsdPrim → TfToken → SdfValueTypeName → σ × UsdAttribute
  /-- The helper `vtValueFromString`. -/
  vtValueFromString : SdfValueTypeName → String → VtValue
  /-- The member `UsdShaderAttributeDef(sdrProp).defaultValue()`. -/
  attrDefDefaultValue : SdrShaderProperty → String
  /-- The member `UsdShaderAttributeDef(sdrProp).getMetadata(key)`. -/
  attrDefGetMetadata : SdrShaderProperty → String → UfeValue
  /-- The member `UsdShaderAttributeDef(sdrProp).hasMetadata(key)`. -/
  attrDefHasMetadata : SdrShaderProperty → String → Bool
  /-- The base member `isValid()`. -/
  baseIsValid : σ → UsdAttribute → Bool
  /-- The base member `isAuthored()`. -/
  baseIsAuthored : σ → UsdAttribute → Bool
  /-- The base member `isEditAllowedMsg()`. -/
  baseIsEditAllowedMsg : σ → UsdAttribute → String
  /-- The base member `get(value, time)`, given what `value` held before: its
  result and the value it leaves in `value`. -/
  baseGet : σ → UsdAttribute → VtValue → UsdTimeCode → Bool × VtValue
  /-- The base member `set(value, time)`: its result and the stage after it. -/
  baseSet : σ → UsdAttribute → VtValue → UsdTimeCode → Bool × σ
  /-- The base member `hasValue()`. -/
  baseHasValue : σ → UsdAttribute → Bool
  /-- The base member `displayName()`. -/
  baseDisplayName : σ → UsdAttribute → String
  /-- The base member `getMetadata(key)`. -/
  baseGetMetadata : σ → UsdAttribute → String → UfeValue
  /-- The base member `setMetadata(key, value)`. -/
  baseSetMetadata : σ → UsdAttribute → String → UfeValue → Bool × σ
  /-- The base member `hasMetadata(key)`. -/
  baseHasMetadata : σ → UsdAttribute → String → Bool
  /-- The base member `getEnums()`. -/
  baseGetEnums : σ → UsdAttribute → List (String × String)

/-! ## `UsdShaderAttributeHolder` -/

/-- The data members of a `UsdShaderAttributeHolder`: `_usdAttr` of the base
class, `_sdrProp` and `_sdrType`. -/
structure UsdShaderAttributeHolder where
  _usdAttr : UsdAttribute
  _sdrProp : SdrShaderProperty
  _sdrType : UsdShadeAttributeType
deriving DecidableEq, Repr

/-- How a construction ends. -/
inductive Construction (α : Type) where
  /-- The constructor returned an object. -/
  | constructed (a : α) : Construction α
  /-- The constructor threw `std::runtime_error` with this message. -/
  | runtime_error (msg : String) : Construction α
  /-- A null pointer was dereferenced: undefined behaviour, no exception. -/
  | nullDereference : Construction α
deriving DecidableEq, Repr

/-- The constructor `UsdShaderAttributeHolder::UsdShaderAttributeHolder`.
`sdrProp` is a raw pointer, `none` being the null pointer.  The base-class
initialiser evaluates `sdrProp->GetName()` before the constructor body, where
the `TF_VERIFY` test is. -/
def UsdShaderAttributeHolder.new (usdPrim : UsdPrim) (sdrProp : Option SdrShaderProperty)
    (sdrType : UsdShadeAttributeType) : Construction UsdShaderAttributeHolder :=
  -- member initialiser list
  match sdrProp with
  | none => .nullDereference
  | some prop =>
    let usdAttr := usdPrim.GetAttribute (GetFullName prop.name sdrType)
    -- constructor body
    if !(sdrProp.isSome && sdrType != UsdShadeAttributeType.Invalid) then
      .runtime_error "Invalid shader attribute holder"
    else
      .constructed { _usdAttr := usdAttr, _sdrProp := prop, _sdrType := sdrType }

/-- The factory `UsdShaderAttributeHolder::create`. -/
def UsdShaderAttributeHolder.create (usdPrim : UsdPrim) (sdrProp : Option SdrShaderProperty)
    (sdrType : UsdShadeAttributeType) : Construction UsdShaderAttributeHolder :=
  UsdShaderAttributeHolder.new usdPrim sdrProp sdrType

/-- The member `std::string::empty`. -/
def strEmpty (s : String) : Bool := decide (s = "")

/-- The process-wide state of `UsdShaderAttributeHolder.cpp`: the static set
`s_ListPropertiesWithoutDefaultValue` and the lines written by `UFE_LOG`. -/
structure WarningState where
  s_ListPropertiesWithoutDefaultValue : List String
  log : List String
deriving DecidableEq, Repr

/-- The state at process start: nothing recorded, nothing logged. -/
def WarningState.initial : WarningState :=
  { s_ListPropertiesWithoutDefaultValue := [], log := [] }

/-- The base member `usdPrim()`: the prim remembered by `_usdAttr`. -/
def UsdShaderAttributeHolder.usdPrim (self : UsdShaderAttributeHolder) : UsdPrim :=
  self._usdAttr.prim

/-- The member `isValid()`, inherited from the base class. -/
def UsdShaderAttributeHolder.isValid {σ : Type} (E : Externals σ)
    (self : UsdShaderAttributeHolder) (stage : σ) : Bool :=
  E.baseIsValid stage self._usdAttr

/-- The member `isAuthored()`, inherited from the base class. -/
def UsdShaderAttributeHolder.isAuthored {σ : Type} (E : Externals σ)
    (self : UsdShaderAttributeHolder) (stage : σ) : Bool :=
  E.baseIsAuthored stage self._usdAttr

/-- The member `UsdShaderAttributeHolder::isEditAllowedMsg`. -/
def UsdShaderAttributeHolder.isEditAllowedMsg {σ : Type} (E : Externals σ)
    (self : UsdShaderAttributeHolder) (stage : σ) : String :=
  if E.baseIsValid stage self._usdAttr then
    E.baseIsEditAllowedMsg stage self._usdAttr
  else if E.primIsValid stage self.usdPrim then
    ""
  else
    "Editing is not allowed."

/-- The member `UsdShaderAttributeHolder::defaultValue`. -/
def UsdShaderAttributeHolder.defaultValue {σ : Type} (E : Externals σ)
    (self : UsdShaderAttributeHolder) : String :=
  if self._sdrProp.type = Matrix3dToken then
    let val := E.attrDefDefaultValue self._sdrProp
    if strEmpty val then
      "0,0,0,0,0,0,0,0,0"
    else
      val
  else if E.PXR_VERSION < 2205 ∧ self._sdrProp.type = BoolToken then
    "false"
  else
    E.attrDefDefaultValue self._sdrProp

/-- The member `UsdShaderAttributeHolder::nativeType`. -/
def UsdShaderAttributeHolder.nativeType (self : UsdShaderAttributeHolder) : String :=
  self._sdrProp.type

/-- The member `UsdShaderAttributeHolder::usdAttributeType`. -/
def UsdShaderAttributeHolder.usdAttributeType {σ : Type} (E : Externals σ)
    (self : UsdShaderAttributeHolder) : SdfValueTypeName :=
  if self._sdrProp.type = Matrix3dToken then
    "matrix3d"
  else if E.PXR_VERSION < 2205 ∧ self._sdrProp.type = BoolToken then
    "bool"
  else
    self._sdrProp.sdfType

/-- The key under which `get` records a property without default value. -/
def listElement (shaderInfoId propertyName : String) : String :=
  shaderInfoId ++ "/" ++ propertyName

/-- The console line `get` writes for a property without default value. -/
def warningMsg (shaderInfoId propertyName : String) : String :=
  "Warning: Shader property '" ++ propertyName
    ++ "' does not have a default value. (Shader info:id: " ++ shaderInfoId ++ ")."

/-- The block of `UsdShaderAttributeHolder::get` guarded by
`defaultValue().empty()`: look the key up in the static set and, when it is
not there, insert it and log the warning. -/
def recordMissingDefault (shaderInfoId propertyName : String) (w : WarningState) :
    WarningState :=
  let warningAlreadySpawn := decide (listElement shaderInfoId propertyName
    ∈ w.s_ListPropertiesWithoutDefaultValue)
  if !warningAlreadySpawn then
    { s_ListPropertiesWithoutDefaultValue :=
        listElement shaderInfoId propertyName :: w.s_ListPropertiesWithoutDefaultValue
      log := w.log ++ [warningMsg shaderInfoId propertyName] }
  else
    w

/-- The member `UsdShaderAttributeHolder::get`.  `value` is the in/out
argument; the result is the returned flag, the value left in `value`, and the
process-wide warning state. -/
def UsdShaderAttributeHolder.get {σ : Type} (E : Externals σ)
    (self : UsdShaderAttributeHolder) (value : VtValue) (time : UsdTimeCode)
    (stage : σ) (w : WarningState) : Bool × VtValue × WarningState :=
  if self.isAuthored E stage then
    let r := E.baseGet stage self._usdAttr value time
    (r.1, r.2, w)
  else
    let value := E.vtValueFromString (self.usdAttributeType E) (self.defaultValue E)
    let w :=
      if strEmpty (self.defaultValue E) then
        let infoIdVariant := E.getInfoId stage self.usdPrim
        let shaderInfoId := infoIdVariant.GetToken
        let propertyName := self._sdrProp.name
        recordMissingDefault shaderInfoId propertyName w
      else
        w
    (!value.IsEmpty, value, w)

/-- The member `UsdShaderAttributeHolder::_CreateUsdAttribute`: the holder
with its new `_usdAttr`, and the stage after the creation. -/
def UsdShaderAttributeHolder._CreateUsdAttribute {σ : Type} (E : Externals σ)
    (self : UsdShaderAttributeHolder) (stage : σ) : UsdShaderAttributeHolder × σ :=
  if self._sdrType = UsdShadeAttributeType.Output then
    let r := E.CreateOutput stage self.usdPrim self._sdrProp.name (self.usdAttributeType E)
    ({ self with _usdAttr := r.2 }, r.1)
  else
    let r := E.CreateInput stage self.usdPrim self._sdrProp.name (self.usdAttributeType E)
    ({ self with _usdAttr := r.2 }, r.1)

/-- What a mutating member leaves behind: the returned flag, the holder, the
stage and the warning state. -/
structure Outcome (σ : Type) where
  result : Bool
  holder : UsdShaderAttributeHolder
  stage : σ
  warnings : WarningState

/-- The member `UsdShaderAttributeHolder::set`. -/
def UsdShaderAttributeHolder.set {σ : Type} (E : Externals σ)
    (self : UsdShaderAttributeHolder) (value : VtValue) (time : UsdTimeCode)
    (stage : σ) (w : WarningState) : Outcome σ :=
  if !self.isValid E stage then
    let g := self.get E VtValue.empty time stage w
    let currentValue := g.2.1
    if currentValue = value then
      { result := true, holder := self, stage := stage, warnings := g.2.2 }
    else if E.primIsValid stage self.usdPrim then
      let c := self._CreateUsdAttribute E stage
      let r := E.baseSet c.2 c.1._usdAttr value time
      { result := r.1, holder := c.1, stage := r.2, warnings := g.2.2 }
    else
      { result := false, holder := self, stage := stage, warnings := g.2.2 }
  else
    let r := E.baseSet stage self._usdAttr value time
    { result := r.1, holder := self, stage := r.2, warnings := w }

/-- The member `UsdShaderAttributeHolder::hasValue`. -/
def UsdShaderAttributeHolder.hasValue {σ : Type} (E : Externals σ)
    (self : UsdShaderAttributeHolder) (stage : σ) : Bool :=
  E.baseHasValue stage self._usdAttr || !strEmpty (self.defaultValue E)

/-- The member `UsdShaderAttributeHolder::name`. -/
def UsdShaderAttributeHolder.name (self : UsdShaderAttributeHolder) : String :=
  GetFullName self._sdrProp.name self._sdrType

/-- The member `UsdShaderAttributeHolder::displayName`. -/
def UsdShaderAttributeHolder.displayName {σ : Type} (E : Externals σ)
    (self : UsdShaderAttributeHolder) (stage : σ) : String :=
  let retVal := E.attrDefGetMetadata self._sdrProp E.UIName
  let name := retVal.safeGetString
  if !strEmpty name then
    name
  else
    E.baseDisplayName stage self._usdAttr

/-- The member `UsdShaderAttributeHolder::documentation`. -/
def UsdShaderAttributeHolder.documentation (self : UsdShaderAttributeHolder) : String :=
  self._sdrProp.help

/-- The member `UsdShaderAttributeHolder::setMetadata`. -/
def UsdShaderAttributeHolder.setMetadata {σ : Type} (E : Externals σ)
    (self : UsdShaderAttributeHolder) (key : String) (value : UfeValue)
    (stage : σ) (w : WarningState) : Outcome σ :=
  if !self.isValid E stage && E.primIsValid stage self.usdPrim then
    let c := self._CreateUsdAttribute E stage
    let r := E.baseSetMetadata c.2 c.1._usdAttr key value
    { result := r.1, holder := c.1, stage := r.2, warnings := w }
  else
    let r := E.baseSetMetadata stage self._usdAttr key value
    { result := r.1, holder := self, stage := r.2, warnings := w }

/-- The member `UsdShaderAttributeHolder::getEnums`. -/
def UsdShaderAttributeHolder.getEnums {σ : Type} (E : Externals σ)
    (self : UsdShaderAttributeHolder) (stage : σ) : List (String × String) :=
  self._sdrProp.options.foldl (fun retVal option => retVal ++ [(option.1, option.2)])
    (E.baseGetEnums stage self._usdAttr)

/-- The member `UsdShaderAttributeHolder::getEnumValues`. -/
def UsdShaderAttributeHolder.getEnumValues {σ : Type} (E : Externals σ)
    (self : UsdShaderAttributeHolder) (stage : σ) : List String :=
  (self.getEnums E stage).foldl (fun retVal option => retVal ++ [option.1]) []

/-! ## Sequences of `get` calls -/

/-- One call `holder.get(value, time)` made while the stage is `stage`. -/
structure GetCall (σ : Type) where
  holder : UsdShaderAttributeHolder
  time : UsdTimeCode
  stage : σ

/-- The shader `info:id` string `get` computes for a call. -/
def GetCall.shaderInfoId {σ : Type} (E : Externals σ) (c : GetCall σ) : String :=
  (E.getInfoId c.stage c.holder.usdPrim).GetToken

/-- The (shader `info:id`, property name) pair of a call. -/
def GetCall.pair {σ : Type} (E : Externals σ) (c : GetCall σ) : String × String :=
  (c.shaderInfoId E, c.holder._sdrProp.name)

/-- The key `get` looks up in the static set for a call. -/
def GetCall.key {σ : Type} (E : Externals σ) (c : GetCall σ) : String :=
  listElement (c.shaderInfoId E) c.holder._sdrProp.name

/-- The warning state after one call of `get`. -/
def GetCall.run {σ : Type} (E : Externals σ) (c : GetCall σ) (w : WarningState) :
    WarningState :=
  (c.holder.get E VtValue.empty c.time c.stage w).2.2

/-- The warning state after a sequence of calls of `get`, first call first. -/
def runGets {σ : Type} (E : Externals σ) : List (GetCall σ) → WarningState → WarningState
  | [], w => w
  | c :: cs, w => runGets E cs (c.run E w)

/-! ## A concrete stage, used to evaluate the holder on examples -/

/-- A stage given by the list of its valid prims and the list of its defined
attributes, each with its authored value (`VtValue.empty`: none authored). -/
structure ListStage where
  prims : List UsdPrim
  attrs : List (UsdAttribute × VtValue)
deriving DecidableEq, Repr

/-- The authored value of a defined attribute of a `ListStage`. -/
def ListStage.find (st : ListStage) (a : UsdAttribute) : Option VtValue :=
  st.attrs.lookup a

/-- Define an attribute on a `ListStage`, keeping it when it is there. -/
def ListStage.define (st : ListStage) (a : UsdAttribute) : ListStage :=
  match st.find a with
  | some _ => st
  | none => { st with attrs := (a, VtValue.empty) :: st.attrs }

/-- Author a value on an attribute of a `ListStage`. -/
def ListStage.author (st : ListStage) (a : UsdAttribute) (v : VtValue) : ListStage :=
  { st with attrs := (a, v) :: st.attrs }

/-- An instance of `Externals` over `ListStage`: attributes exist when they are
listed, writes succeed exactly on existing attributes, the property
definitions carry the default `dflt` and no metadata. -/
def listExternals (dflt : String) : Externals ListStage where
  PXR_VERSION := 2311
  UIName := "uiname"
  primIsValid := fun st p => decide (p ∈ st.prims)
  getInfoId := fun st p =>
    match st.find (p.GetAttribute "info:id") with
    | some v => v
    | none => VtValue.empty
  CreateInput := fun st p name _ =>
    (st.define (p.GetAttribute (GetFullName name UsdShadeAttributeType.Input)),
      p.GetAttribute (GetFullName name UsdShadeAttributeType.Input))
  CreateOutput := fun st p name _ =>
    (st.define (p.GetAttribute (GetFullName name UsdShadeAttributeType.Output)),
      p.GetAttribute (GetFullName name UsdShadeAttributeType.Output))
  vtValueFromString := fun ty s => if s = "" then VtValue.empty else VtValue.holding ty s
  attrDefDefaultValue := fun _ => dflt
  attrDefGetMetadata := fun _ _ => UfeValue.empty
  attrDefHasMetadata := fun _ _ => false
  baseIsValid := fun st a => (st.find a).isSome
  baseIsAuthored := fun st a =>
    match st.find a with
    | some v => !v.IsEmpty
    | none => false
  baseIsEditAllowedMsg := fun _ _ => ""
  baseGet := fun st a v _ =>
    match st.find a with
    | some x => (!x.IsEmpty, if x.IsEmpty then v else x)
    | none => (false, v)
  baseSet := fun st a v _ =>
    match st.find a with
    | some _ => (true, st.author a v)
    | none => (false, st)
  baseHasValue := fun st a =>
    match st.find a with
    | some v => !v.IsEmpty
    | none => false
  baseDisplayName := fun _ a => a.name
  baseGetMetadata := fun _ _ _ => UfeValue.empty
  baseSetMetadata := fun st a _ _ => ((st.find a).isSome, st)
  baseHasMetadata := fun _ _ _ => false
  baseGetEnums := fun _ _ => []

/-- A shader prim used in the examples. -/
def demoPrim : UsdPrim := { path := "/mtl/shader" }

/-- A float property definition named `name`. -/
def demoProp (name : String) : SdrShaderProperty :=
  { name := name, type := "float", sdfType := "float", help := "", options := [] }

/-- A holder on `prim` for the input `name`, as the constructor builds it. -/
def demoHolder (prim : UsdPrim) (name : String) : UsdShaderAttributeHolder :=
  { _usdAttr := prim.GetAttribute (GetFullName name UsdShadeAttributeType.Input)
    _sdrProp := demoProp name
    _sdrType := UsdShadeAttributeType.Input }

/-- A stage holding `demoPrim` and nothing else. -/
def demoStage : ListStage := { prims := [demoPrim], attrs := [] }

/-- A stage holding the prim at `path` with the given `info:id`. -/
def stageWithInfoId (path infoId : String) : ListStage :=
  { prims := [{ path := path }]
    attrs := [(UsdPrim.GetAttribute { path := path } "info:id", VtValue.holding "token" infoId)] }

/-- A call of `get` for the property `c` of a shader whose `info:id` is `a/b`. -/
def collisionCall1 : GetCall ListStage :=
  { holder := demoHolder { path := "/p" } "c", time := 0, stage := stageWithInfoId "/p" "a/b" }

/-- A call of `get` for the property `b/c` of a shader whose `info:id` is `a`. -/
def collisionCall2 : GetCall ListStage :=
  { holder := demoHolder { path := "/p" } "b/c", time := 0, stage := stageWithInfoId "/p" "a" }

/-! ## `MayaUsdProxyShapeBase` (proxyShapeBase.h) -/

/-- The number of bits of `size_t`. -/
def SIZE_WIDTH : Nat := 64

/-- The largest `size_t`. -/
def SIZE_MAX : Nat := 2 ^ SIZE_WIDTH - 1

/-- The enumeration `MayaUsdProxyShapeBase::ShareMode`. -/
inductive ShareMode where
  | Unknown
  | Shared
  | Unshared
deriving DecidableEq, Repr

/-- An `MBoundingBox`, by its two corners.  Boxes are stored and handed back,
never computed with, so the coordinates are integers. -/
structure MBoundingBox where
  min : Int × Int × Int
  max : Int × Int × Int
deriving DecidableEq, Repr

/-- The data members of `MayaUsdProxyShapeBase` that hold the caches, the
counters and the share mode, with their default member initialisers.  The
`std::map` is the list of its entries; the `size_t` counters are naturals
below `2 ^ SIZE_WIDTH`. -/
structure MayaUsdProxyShapeBase where
  _boundingBoxCache : List (UsdTimeCode × MBoundingBox) := []
  _excludePrimPathsVersion : Nat := 1
  _UsdStageVersion : Nat := 1
  _UsdStageUpdateCounter : Int := 1
  _UsdStageResyncCounter : Int := 1
  _previousShareMode : ShareMode := ShareMode.Unknown
deriving DecidableEq, Repr

/-- A node as the constructor leaves it: every member at its initialiser. -/
def MayaUsdProxyShapeBase.fresh : MayaUsdProxyShapeBase := {}

/-- The member `_IncreaseExcludePrimPathsVersion`: `_excludePrimPathsVersion++`
on a `size_t`. -/
def MayaUsdProxyShapeBase._IncreaseExcludePrimPathsVersion (self : MayaUsdProxyShapeBase) :
    MayaUsdProxyShapeBase :=
  { self with
    _excludePrimPathsVersion := (self._excludePrimPathsVersion + 1) % 2 ^ SIZE_WIDTH }

/-- The member `_IncreaseUsdStageVersion`: `_UsdStageVersion++` on a `size_t`. -/
def MayaUsdProxyShapeBase._IncreaseUsdStageVersion (self : MayaUsdProxyShapeBase) :
    MayaUsdProxyShapeBase :=
  { self with _UsdStageVersion := (self._UsdStageVersion + 1) % 2 ^ SIZE_WIDTH }

/-- The node after `n` calls of `_IncreaseExcludePrimPathsVersion`. -/
def MayaUsdProxyShapeBase.increaseExcludePrimPathsVersionTimes :
    Nat → MayaUsdProxyShapeBase → MayaUsdProxyShapeBase
  | 0, self => self
  | n + 1, self =>
    (increaseExcludePrimPathsVersionTimes n self)._IncreaseExcludePrimPathsVersion

/-- The node after `n` calls of `_IncreaseUsdStageVersion`. -/
def MayaUsdProxyShapeBase.increaseUsdStageVersionTimes :
    Nat → MayaUsdProxyShapeBase → MayaUsdProxyShapeBase
  | 0, self => self
  | n + 1, self => (increaseUsdStageVersionTimes n self)._IncreaseUsdStageVersion

/-- Modelled from the spec: the share mode a compute resolves from the
share-stage input: "if share-toggle is on: ... shared handle", "if off: ...
private (unshared) stage". -/
def MayaUsdProxyShapeBase.resolveShareMode (shareStage : Bool) : ShareMode :=
  if shareStage then ShareMode.Shared else ShareMode.Unshared

/-- Modelled from the spec: the body of `updateShareMode`, which the header
only declares.  The spec: "when ShareMode changes between computes, the
manager must transfer the target (edit) layer's contents", and "first compute
always starts from `Unknown`; the manager must not attempt a transfer on
this transition".  The result is the node and whether
`transferSessionLayer` was run. -/
def MayaUsdProxyShapeBase.updateShareMode (self : MayaUsdProxyShapeBase)
    (currentMode : ShareMode) : MayaUsdProxyShapeBase × Bool :=
  if self._previousShareMode = ShareMode.Unknown then
    ({ self with _previousShareMode := currentMode }, false)
  else if self._previousShareMode = currentMode then
    (self, false)
  else
    ({ self with _previousShareMode := currentMode }, true)

/-- Modelled from the spec: what one compute does to the share mode.
`shareStage` is `none` for a compute whose stage resolution fails (the spec:
"a failed open leaves the node in a valid no-stage state") and the value of
the share-stage input for a successful one.  The result is the node and
whether a transfer was run. -/
def MayaUsdProxyShapeBase.compute (self : MayaUsdProxyShapeBase)
    (shareStage : Option Bool) : MayaUsdProxyShapeBase × Bool :=
  match shareStage with
  | none => (self, false)
  | some b => self.updateShareMode (MayaUsdProxyShapeBase.resolveShareMode b)

/-- The node after a sequence of computes, first compute first. -/
def MayaUsdProxyShapeBase.computeAll :
    List (Option Bool) → MayaUsdProxyShapeBase → MayaUsdProxyShapeBase
  | [], self => self
  | c :: cs, self => computeAll cs (self.compute c).1

/-- An `SdfLayerRefPtr`, by the identifier of the layer it refers to. -/
abbrev SdfLayerRefPtr := String

/-- The private global list of muted layers, as the list of its members. -/
abbrev MutedLayers := List SdfLayerRefPtr

/-- Whether the registry retains a layer. -/
def isRetained (layers : MutedLayers) (layer : SdfLayerRefPtr) : Bool :=
  decide (layer ∈ layers)

/-- Modelled from the spec: the body of `addMutedLayer`, which the header
only declares (layerMuting.cpp is missing).  The spec: "register ... a layer
reference in a process-wide retention set". -/
def addMutedLayer (layer : SdfLayerRefPtr) (layers : MutedLayers) : MutedLayers :=
  if layer ∈ layers then layers else layer :: layers

/-- Modelled from the spec: the body of `removeMutedLayer`, which the header
only declares.  The spec: "unregister a layer reference in a process-wide
retention set". -/
def removeMutedLayer (layer : SdfLayerRefPtr) (layers : MutedLayers) : MutedLayers :=
  layers.filter (fun l => l ≠ layer)

/-- Modelled from the spec: the body of `forgetMutedLayers`, which the header
only declares.  The spec: "`forgetMutedLayers` clears the whole set". -/
def forgetMutedLayers (_layers : MutedLayers) : MutedLayers :=
  []

/-! ## The closest-point delegate slot (proxyShapeBase.h) -/

/-- A `ClosestPointDelegate`: a `std::function`, by an identifier of the
callable it wraps; `none` is the empty function. -/
abbrev ClosestPointDelegate := Option Nat

/-- The process-wide state of the class `MayaUsdProxyShapeBase`: the static
member `_sharedClosestPointDelegate` and the node instances alive. -/
structure ProxyShapeProcess where
  _sharedClosestPointDelegate : ClosestPointDelegate
  nodes : List MayaUsdProxyShapeBase
deriving DecidableEq, Repr

/-- The delegates installed in a process: the callable of the slot, if any. -/
def ProxyShapeProcess.installed (p : ProxyShapeProcess) : List Nat :=
  p._sharedClosestPointDelegate.toList

/-- Modelled from the spec: the body of the static member
`SetClosestPointDelegate`, which the header only declares
(proxyShapeBase.cpp is missing).  The spec: "at most one closest-point
delegate function may be installed at a time (`set` replaces any previous
installation)". -/
def SetClosestPointDelegate (delegate : ClosestPointDelegate) (p : ProxyShapeProcess) :
    ProxyShapeProcess :=
  { p with _sharedClosestPointDelegate := delegate }

/-- Modelled from the spec: the delegate a node consults in `closestPoint`.
The spec: "an optional process-wide function slot ... not owned by any single
node instance"; the header declares the slot `static`. -/
def MayaUsdProxyShapeBase.closestPointDelegate (_self : MayaUsdProxyShapeBase)
    (p : ProxyShapeProcess) : ClosestPointDelegate :=
  p._sharedClosestPointDelegate

/-! ## More examples -/

/-- A stage without any prim. -/
def emptyStage : ListStage := { prims := [], attrs := [] }

/-- A holder on `prim` for the `matrix3d` input `name`. -/
def matrixHolder (prim : UsdPrim) (name : String) : UsdShaderAttributeHolder :=
  { _usdAttr := prim.GetAttribute (GetFullName name UsdShadeAttributeType.Input)
    _sdrProp :=
      { name := name, type := Matrix3dToken, sdfType := "token", help := "", options := [] }
    _sdrType := UsdShadeAttributeType.Input }

end MayaUsd

/-! ## Theorems -/

namespace MayaUsd

/-! ### Construction -/

/-- With a descriptor that is not null, construction fails exactly when the
attribute type is `Invalid`, and the failure is the thrown `runtime_error`. -/
theorem UsdShaderAttributeHolder.new_of_descriptor (usdPrim : UsdPrim)
    (prop : SdrShaderProperty) (sdrType : UsdShadeAttributeType) :
    UsdShaderAttributeHolder.new usdPrim (some prop) sdrType =
      if sdrType = UsdShadeAttributeType.Invalid then
        Construction.runtime_error "Invalid shader attribute holder"
      else
        Construction.constructed
          { _usdAttr := usdPrim.GetAttribute (GetFullName prop.name sdrType)
            _sdrProp := prop
            _sdrType := sdrType } := by
  cases sdrType <;> simp [UsdShaderAttributeHolder.new]

/-- C2 (the code at the failing input): for every prim and attribute type,
constructing a holder, by the constructor or by `create`, against a null
property descriptor dereferences the null pointer in the base-class
initialiser; the `runtime_error` of the constructor body is not what ends the
construction. -/
theorem UsdShaderAttributeHolder.new_null_descriptor (usdPrim : UsdPrim)
    (sdrType : UsdShadeAttributeType) :
    UsdShaderAttributeHolder.new usdPrim none sdrType = Construction.nullDereference ∧
    UsdShaderAttributeHolder.create usdPrim none sdrType = Construction.nullDereference ∧
    UsdShaderAttributeHolder.create usdPrim none sdrType
      ≠ Construction.runtime_error "Invalid shader attribute holder" := by
  refine ⟨rfl, rfl, ?_⟩
  simp [UsdShaderAttributeHolder.create, UsdShaderAttributeHolder.new]

/-! ### `set` creates the attribute before it writes -/

/-- C1 (counterexample): the holder for the input `x` of a valid prim has no
attribute yet and its definition has the default `0.5`; setting the value
`0.5` reports success, yet no attribute was created, the stage is unchanged
and the holder is still not valid. -/
theorem UsdShaderAttributeHolder.set_fallback_value_creates_nothing :
    (demoHolder demoPrim "x").isValid (listExternals "0.5") demoStage = false ∧
    ((demoHolder demoPrim "x").set (listExternals "0.5") (VtValue.holding "float" "0.5") 0
      demoStage WarningState.initial).result = true ∧
    ((demoHolder demoPrim "x").set (listExternals "0.5") (VtValue.holding "float" "0.5") 0
      demoStage WarningState.initial).stage = demoStage ∧
    ((demoHolder demoPrim "x").set (listExternals "0.5") (VtValue.holding "float" "0.5") 0
      demoStage WarningState.initial).holder.isValid (listExternals "0.5") demoStage = false := by
  decide

/-- C1 (amended): let the holder have no underlying attribute yet and let the
value differ from the fallback value `get` yields at that time.  Then `set`
reports success exactly when the prim is valid and the base write on the
created attribute reports success; the attribute is created by `CreateOutput`
when the attribute type is `Output` and by `CreateInput` otherwise, on the
stage as it was before the write; and after a `set` that reports success the
holder holds the created attribute, the stage is the one the base write left,
and (a base write reporting success only on an attribute that is valid
afterwards) the holder is valid. -/
theorem UsdShaderAttributeHolder.set_creates_then_writes {σ : Type} (E : Externals σ)
    (self : UsdShaderAttributeHolder) (value : VtValue) (time : UsdTimeCode)
    (stage : σ) (w : WarningState)
    (hinvalid : self.isValid E stage = false)
    (hdiff : (self.get E VtValue.empty time stage w).2.1 ≠ value)
    (hbase : ∀ s a v t, (E.baseSet s a v t).1 = true →
      E.baseIsValid (E.baseSet s a v t).2 a = true) :
    (self._CreateUsdAttribute E stage =
      if self._sdrType = UsdShadeAttributeType.Output then
        ({ self with _usdAttr := (E.CreateOutput stage self.usdPrim self._sdrProp.name
            (self.usdAttributeType E)).2 },
          (E.CreateOutput stage self.usdPrim self._sdrProp.name (self.usdAttributeType E)).1)
      else
        ({ self with _usdAttr := (E.CreateInput stage self.usdPrim self._sdrProp.name
            (self.usdAttributeType E)).2 },
          (E.CreateInput stage self.usdPrim self._sdrProp.name (self.usdAttributeType E)).1)) ∧
    ((self.set E value time stage w).result = true ↔
      E.primIsValid stage self.usdPrim = true ∧
      (E.baseSet (self._CreateUsdAttribute E stage).2
        (self._CreateUsdAttribute E stage).1._usdAttr value time).1 = true) ∧
    ((self.set E value time stage w).result = true →
      (self.set E value time stage w).holder = (self._CreateUsdAttribute E stage).1 ∧
      (self.set E value time stage w).stage =
        (E.baseSet (self._CreateUsdAttribute E stage).2
          (self._CreateUsdAttribute E stage).1._usdAttr value time).2 ∧
      (self.set E value time stage w).holder.isValid E
        (self.set E value time stage w).stage = true) := by
  refine ⟨?_, ?_, ?_⟩
  · unfold UsdShaderAttributeHolder._CreateUsdAttribute
    split <;> rfl
  · unfold UsdShaderAttributeHolder.set
    simp only [hinvalid, Bool.not_false, if_true, if_neg hdiff]
    by_cases hp : E.primIsValid stage self.usdPrim = true
    · simp [hp]
    · simp [hp]
  · unfold UsdShaderAttributeHolder.set
    simp only [hinvalid, Bool.not_false, if_true, if_neg hdiff]
    by_cases hp : E.primIsValid stage self.usdPrim = true
    · simp only [hp, if_true]
      intro hres
      exact ⟨trivial, trivial, hbase _ _ _ _ hres⟩
    · simp [hp]

/-- The concrete externals satisfy the assumption on base writes: a write that
reports success leaves its attribute defined. -/
theorem listExternals_baseSet_valid (dflt : String) (s : ListStage) (a : UsdAttribute)
    (v : VtValue) (t : UsdTimeCode)
    (h : ((listExternals dflt).baseSet s a v t).1 = true) :
    (listExternals dflt).baseIsValid ((listExternals dflt).baseSet s a v t).2 a = true := by
  simp only [listExternals] at h ⊢
  cases hf : s.find a with
  | none => simp [hf] at h
  | some x => simp [hf, ListStage.find, ListStage.author, List.lookup]

/-- C1 (witness): on a valid prim without the attribute, with default `0.5`,
setting `0.7` creates `inputs:x`, writes it, and leaves the holder valid. -/
theorem UsdShaderAttributeHolder.set_creates_then_writes_witness :
    (demoHolder demoPrim "x").isValid (listExternals "0.5") demoStage = false ∧
    ((demoHolder demoPrim "x").get (listExternals "0.5") VtValue.empty 0 demoStage
        WarningState.initial).2.1 ≠ VtValue.holding "float" "0.7" ∧
    ((demoHolder demoPrim "x").set (listExternals "0.5") (VtValue.holding "float" "0.7") 0
        demoStage WarningState.initial).result = true ∧
    ((demoHolder demoPrim "x").set (listExternals "0.5") (VtValue.holding "float" "0.7") 0
        demoStage WarningState.initial).holder.isValid (listExternals "0.5")
      ((demoHolder demoPrim "x").set (listExternals "0.5") (VtValue.holding "float" "0.7") 0
        demoStage WarningState.initial).stage = true :=
  have h := UsdShaderAttributeHolder.set_creates_then_writes (listExternals "0.5")
    (demoHolder demoPrim "x") (VtValue.holding "float" "0.7") 0 demoStage WarningState.initial
    (by decide) (by decide) (listExternals_baseSet_valid "0.5")
  ⟨by decide, by decide, by decide, (h.2.2 (by decide)).2.2⟩


/-! ### Fallback values -/

/-- C3: for every holder and time, when the underlying attribute is authored
`get` returns exactly what the base `get` returns (flag and value) and leaves
the warning state alone; when it is not authored the value is
`vtValueFromString(usdAttributeType(), defaultValue())`, the flag is true
exactly when that value is not empty, and the outcome is the same whatever
the base `get` would do and whatever `value` held before: the underlying
attribute is not consulted. -/
theorem UsdShaderAttributeHolder.get_fallback {σ : Type} (E : Externals σ)
    (self : UsdShaderAttributeHolder) (value : VtValue) (time : UsdTimeCode)
    (stage : σ) (w : WarningState) :
    (self.isAuthored E stage = true →
      self.get E value time stage w =
        ((E.baseGet stage self._usdAttr value time).1,
          (E.baseGet stage self._usdAttr value time).2, w)) ∧
    (self.isAuthored E stage = false →
      (self.get E value time stage w).2.1 =
        E.vtValueFromString (self.usdAttributeType E) (self.defaultValue E) ∧
      ((self.get E value time stage w).1 = true ↔
        (E.vtValueFromString (self.usdAttributeType E) (self.defaultValue E)).IsEmpty = false) ∧
      (∀ (g : σ → UsdAttribute → VtValue → UsdTimeCode → Bool × VtValue) (value2 : VtValue),
        self.get { E with baseGet := g } value2 time stage w
          = self.get E value time stage w)) := by
  constructor
  · intro h
    simp [UsdShaderAttributeHolder.get, h]
  · intro h
    refine ⟨?_, ?_, ?_⟩
    · simp [UsdShaderAttributeHolder.get, h]
    · simp [UsdShaderAttributeHolder.get, h]
    · intro g value2
      have h2 : self.isAuthored { E with baseGet := g } stage = false := h
      simp only [UsdShaderAttributeHolder.get, h, h2]
      rfl

/-- C3 (witness): an authored attribute answers with its authored value, an
unauthored one with the parsed default of its definition. -/
theorem UsdShaderAttributeHolder.get_fallback_witness :
    (demoHolder demoPrim "x").get (listExternals "0.5") VtValue.empty 0
        (demoStage.author (demoHolder demoPrim "x")._usdAttr (VtValue.holding "float" "2"))
        WarningState.initial
      = (true, VtValue.holding "float" "2", WarningState.initial) ∧
    ((demoHolder demoPrim "x").get (listExternals "0.5") VtValue.empty 0 demoStage
        WarningState.initial).2.1 = VtValue.holding "float" "0.5" :=
  ⟨(UsdShaderAttributeHolder.get_fallback (listExternals "0.5") (demoHolder demoPrim "x")
      VtValue.empty 0
      (demoStage.author (demoHolder demoPrim "x")._usdAttr (VtValue.holding "float" "2"))
      WarningState.initial).1 (by decide),
   ((UsdShaderAttributeHolder.get_fallback (listExternals "0.5") (demoHolder demoPrim "x")
      VtValue.empty 0 demoStage WarningState.initial).2 (by decide)).1⟩

/-- The string `defaultValue()` returns is not empty as soon as the default
of the property definition is not empty. -/
theorem UsdShaderAttributeHolder.defaultValue_ne_empty {σ : Type} (E : Externals σ)
    (self : UsdShaderAttributeHolder) (h : E.attrDefDefaultValue self._sdrProp ≠ "") :
    self.defaultValue E ≠ "" := by
  unfold UsdShaderAttributeHolder.defaultValue
  split
  · simp only [strEmpty]
    split
    · decide
    · exact h
  · split
    · decide
    · exact h

/-- C5: for every holder, `hasValue()` is true exactly when the underlying
attribute has a value or the string returned by `defaultValue()` is not
empty; in particular a property whose definition has a non-empty default
has a value, authored or not. -/
theorem UsdShaderAttributeHolder.hasValue_iff {σ : Type} (E : Externals σ)
    (self : UsdShaderAttributeHolder) (stage : σ) :
    (self.hasValue E stage = true ↔
      E.baseHasValue stage self._usdAttr = true ∨ self.defaultValue E ≠ "") ∧
    (E.attrDefDefaultValue self._sdrProp ≠ "" → self.hasValue E stage = true) := by
  have key : self.hasValue E stage = true ↔
      E.baseHasValue stage self._usdAttr = true ∨ self.defaultValue E ≠ "" := by
    simp [UsdShaderAttributeHolder.hasValue, strEmpty]
  exact ⟨key, fun h => key.2 (Or.inr (self.defaultValue_ne_empty E h))⟩

/-- C5 (witness): the never-authored input `x` with default `0.5` has a value. -/
theorem UsdShaderAttributeHolder.hasValue_iff_witness :
    (listExternals "0.5").baseHasValue demoStage (demoHolder demoPrim "x")._usdAttr = false ∧
    (demoHolder demoPrim "x").hasValue (listExternals "0.5") demoStage = true :=
  ⟨by decide,
   (UsdShaderAttributeHolder.hasValue_iff (listExternals "0.5") (demoHolder demoPrim "x")
      demoStage).2 (by decide)⟩

/-- A call on an unauthored property whose default value is empty runs the
recording block, with the `info:id` and property name of the call. -/
theorem GetCall.run_of_missing_default {σ : Type} (E : Externals σ) (c : GetCall σ)
    (w : WarningState) (hauth : c.holder.isAuthored E c.stage = false)
    (hdef : c.holder.defaultValue E = "") :
    c.run E w = recordMissingDefault (c.shaderInfoId E) c.holder._sdrProp.name w := by
  simp [GetCall.run, UsdShaderAttributeHolder.get, hauth, hdef, strEmpty,
    GetCall.shaderInfoId]

/-- The keys in the static set after the recording block. -/
theorem mem_recordMissingDefault (i p k : String) (w : WarningState) :
    k ∈ (recordMissingDefault i p w).s_ListPropertiesWithoutDefaultValue ↔
      k = listElement i p ∨ k ∈ w.s_ListPropertiesWithoutDefaultValue := by
  unfold recordMissingDefault
  by_cases h : listElement i p ∈ w.s_ListPropertiesWithoutDefaultValue
  · simp only [h, decide_True, Bool.not_true, Bool.false_eq_true, if_false]
    constructor
    · exact Or.inr
    · rintro (rfl | hk)
      · exact h
      · exact hk
  · simp [h]

/-- The keys in the static set after a sequence of calls are the keys it held
before and the keys of the calls. -/
theorem mem_runGets {σ : Type} (E : Externals σ) (cs : List (GetCall σ)) :
    ∀ (w : WarningState),
    (∀ x ∈ cs, x.holder.isAuthored E x.stage = false ∧ x.holder.defaultValue E = "") →
    ∀ k, k ∈ (runGets E cs w).s_ListPropertiesWithoutDefaultValue ↔
      k ∈ w.s_ListPropertiesWithoutDefaultValue ∨ k ∈ cs.map (GetCall.key E) := by
  induction cs with
  | nil => intro w _ k; simp [runGets]
  | cons c cs ih =>
    intro w hall k
    have hc := hall c (List.mem_cons_self _ _)
    have hcs : ∀ x ∈ cs, x.holder.isAuthored E x.stage = false ∧ x.holder.defaultValue E = "" :=
      fun x hx => hall x (List.mem_cons_of_mem _ hx)
    rw [runGets, ih _ hcs k, GetCall.run_of_missing_default E c w hc.1 hc.2,
      mem_recordMissingDefault]
    simp only [List.map_cons, List.mem_cons, GetCall.key]
    tauto

/-- Running a sequence of calls and then one more. -/
theorem runGets_append {σ : Type} (E : Externals σ) (cs : List (GetCall σ)) (c : GetCall σ) :
    ∀ (w : WarningState), runGets E (cs ++ [c]) w = c.run E (runGets E cs w) := by
  induction cs with
  | nil => intro w; rfl
  | cons d cs ih => intro w; exact ih (d.run E w)

/-- The static set never holds a key twice and every insertion is logged:
after a sequence of calls from process start the set has no duplicates and
the log has one line per key of the set. -/
theorem runGets_nodup_length {σ : Type} (E : Externals σ) (cs : List (GetCall σ)) :
    ∀ (w : WarningState),
    (∀ x ∈ cs, x.holder.isAuthored E x.stage = false ∧ x.holder.defaultValue E = "") →
    w.s_ListPropertiesWithoutDefaultValue.Nodup →
    w.log.length = w.s_ListPropertiesWithoutDefaultValue.length →
    (runGets E cs w).s_ListPropertiesWithoutDefaultValue.Nodup ∧
    (runGets E cs w).log.length
      = (runGets E cs w).s_ListPropertiesWithoutDefaultValue.length := by
  induction cs with
  | nil => intro w _ h1 h2; exact ⟨h1, h2⟩
  | cons c cs ih =>
    intro w hall h1 h2
    have hc := hall c (List.mem_cons_self _ _)
    have hcs : ∀ x ∈ cs, x.holder.isAuthored E x.stage = false ∧ x.holder.defaultValue E = "" :=
      fun x hx => hall x (List.mem_cons_of_mem _ hx)
    rw [runGets, GetCall.run_of_missing_default E c w hc.1 hc.2]
    apply ih _ hcs
    · unfold recordMissingDefault
      by_cases h : listElement (c.shaderInfoId E) c.holder._sdrProp.name
          ∈ w.s_ListPropertiesWithoutDefaultValue
      · simpa [h] using h1
      · simp [h, h1]
    · unfold recordMissingDefault
      by_cases h : listElement (c.shaderInfoId E) c.holder._sdrProp.name
          ∈ w.s_ListPropertiesWithoutDefaultValue
      · simpa [h] using h2
      · simp [h, h2]

/-- Two lists that both end in the separator followed by a part free of the
separator are equal only if their parts are. -/
theorem append_sep_inj {α : Type} {c : α} {x₁ x₂ z₁ z₂ : List α}
    (h₁ : c ∉ z₁) (h₂ : c ∉ z₂) (h : x₁ ++ c :: z₁ = x₂ ++ c :: z₂) :
    x₁ = x₂ ∧ z₁ = z₂ := by
  simp only [List.append_eq_append_iff, List.cons_eq_append_iff] at h
  rcases h with ⟨a, rfl, ⟨rfl, h⟩ | ⟨d, rfl, rfl⟩⟩ | ⟨a, rfl, ⟨rfl, h⟩ | ⟨d, rfl, rfl⟩⟩
  · simp_all
  · simp at h₁
  · simp_all
  · simp at h₂

/-- The key determines the (`info:id`, property name) pair when the property
names hold no separator. -/
theorem listElement_inj {i₁ i₂ p₁ p₂ : String} (h₁ : '/' ∉ p₁.data) (h₂ : '/' ∉ p₂.data)
    (h : listElement i₁ p₁ = listElement i₂ p₂) : i₁ = i₂ ∧ p₁ = p₂ := by
  have hd : i₁.data ++ '/' :: p₁.data = i₂.data ++ '/' :: p₂.data := by
    have := congrArg String.data h
    simpa [listElement, String.data_append] using this
  obtain ⟨ha, hb⟩ := append_sep_inj h₁ h₂ hd
  exact ⟨String.ext ha, String.ext hb⟩


/-- C4 (counterexample): two calls on unauthored properties without default
value, the first for the pair (`a/b`, `c`), the second for the pair
(`a`, `b/c`).  The second pair was not seen before, yet the second call
records and logs nothing: both pairs give the key `a/b/c`. -/
theorem get_warning_distinct_pairs_one_warning :
    collisionCall1.holder.isAuthored (listExternals "") collisionCall1.stage = false ∧
    collisionCall1.holder.defaultValue (listExternals "") = "" ∧
    collisionCall2.holder.isAuthored (listExternals "") collisionCall2.stage = false ∧
    collisionCall2.holder.defaultValue (listExternals "") = "" ∧
    collisionCall1.pair (listExternals "") = ("a/b", "c") ∧
    collisionCall2.pair (listExternals "") = ("a", "b/c") ∧
    runGets (listExternals "") [collisionCall1, collisionCall2] WarningState.initial
      = runGets (listExternals "") [collisionCall1] WarningState.initial ∧
    (runGets (listExternals "") [collisionCall1, collisionCall2] WarningState.initial).log
      = ["Warning: Shader property 'c' does not have a default value. (Shader info:id: a/b)."] := by
  decide

/-- C4 (amended): over every sequence of `get` calls on unauthored properties
whose default value is empty, started with nothing recorded, the warning is
recorded and logged exactly once for each distinct key `info:id/name`: a
call whose key occurred in an earlier call changes nothing, a call whose key
did not occur records the key and logs one line, whatever other keys were
seen before, and the number of lines logged is the number of distinct keys.
When no property name of the sequence contains the character `/`, the key
of a call occurred before exactly when its (`info:id`, property name) pair
did. -/
theorem get_warning_once_per_key {σ : Type} (E : Externals σ) (pre : List (GetCall σ))
    (c : GetCall σ)
    (hall : ∀ x ∈ pre ++ [c],
      x.holder.isAuthored E x.stage = false ∧ x.holder.defaultValue E = "") :
    (c.key E ∈ pre.map (GetCall.key E) →
      runGets E (pre ++ [c]) WarningState.initial = runGets E pre WarningState.initial) ∧
    (c.key E ∉ pre.map (GetCall.key E) →
      (runGets E (pre ++ [c]) WarningState.initial).log
        = (runGets E pre WarningState.initial).log
          ++ [warningMsg (c.shaderInfoId E) c.holder._sdrProp.name] ∧
      (runGets E (pre ++ [c]) WarningState.initial).s_ListPropertiesWithoutDefaultValue
        = c.key E
          :: (runGets E pre WarningState.initial).s_ListPropertiesWithoutDefaultValue) ∧
    ((∀ x ∈ pre ++ [c], '/' ∉ x.holder._sdrProp.name.data) →
      (c.key E ∈ pre.map (GetCall.key E) ↔ c.pair E ∈ pre.map (GetCall.pair E))) ∧
    (runGets E pre WarningState.initial).log.length
      = ((pre.map (GetCall.key E)).dedup).length := by
  have hpre : ∀ x ∈ pre,
      x.holder.isAuthored E x.stage = false ∧ x.holder.defaultValue E = "" :=
    fun x hx => hall x (List.mem_append_left _ hx)
  have hc := hall c (List.mem_append_right _ (List.mem_singleton_self c))
  have hmem : ∀ k, k ∈ (runGets E pre WarningState.initial).s_ListPropertiesWithoutDefaultValue
      ↔ k ∈ pre.map (GetCall.key E) := by
    intro k
    rw [mem_runGets E pre WarningState.initial hpre k]
    simp [WarningState.initial]
  have hstep : runGets E (pre ++ [c]) WarningState.initial
      = recordMissingDefault (c.shaderInfoId E) c.holder._sdrProp.name
          (runGets E pre WarningState.initial) := by
    rw [runGets_append, GetCall.run_of_missing_default E c _ hc.1 hc.2]
  refine ⟨?_, ?_, ?_, ?_⟩
  · intro hk
    have hk2 := (hmem _).2 hk
    rw [hstep]
    unfold recordMissingDefault
    simp only [GetCall.key] at hk2
    simp [hk2]
  · intro hk
    have hk2 : ¬ c.key E
        ∈ (runGets E pre WarningState.initial).s_ListPropertiesWithoutDefaultValue :=
      fun h => hk ((hmem _).1 h)
    rw [hstep]
    unfold recordMissingDefault
    simp only [GetCall.key] at hk2
    simp [hk2, GetCall.key]
  · intro hslash
    simp only [List.mem_map]
    constructor
    · rintro ⟨x, hx, hxk⟩
      refine ⟨x, hx, ?_⟩
      have hinj := listElement_inj
        (hslash x (List.mem_append_left _ hx))
        (hslash c (List.mem_append_right _ (List.mem_singleton_self c))) hxk
      simp only [GetCall.pair, hinj.1, hinj.2]
    · rintro ⟨x, hx, hxp⟩
      refine ⟨x, hx, ?_⟩
      simp only [GetCall.pair, Prod.mk.injEq] at hxp
      simp only [GetCall.key, hxp.1, hxp.2]
  · have hnd := runGets_nodup_length E pre WarningState.initial hpre
      (by simp [WarningState.initial]) (by simp [WarningState.initial])
    rw [hnd.2]
    apply List.Perm.length_eq
    rw [List.perm_ext_iff_of_nodup hnd.1 (List.nodup_dedup _)]
    intro k
    rw [hmem k, List.mem_dedup]

/-- C4 (witness): two calls for the same property of the same shader log one
warning; the second call changes nothing. -/
theorem get_warning_once_per_key_witness :
    (runGets (listExternals "") ([collisionCall1] ++ [collisionCall1])
        WarningState.initial = runGets (listExternals "") [collisionCall1] WarningState.initial) ∧
    (runGets (listExternals "") ([] ++ [collisionCall1]) WarningState.initial).log
      = (runGets (listExternals "") [] WarningState.initial).log
          ++ [warningMsg "a/b" "c"] :=
  ⟨(get_warning_once_per_key (listExternals "") [collisionCall1] collisionCall1
      (by decide)).1 (by decide),
   ((get_warning_once_per_key (listExternals "") [] collisionCall1
      (by decide)).2.1 (by decide)).1⟩


/-! ### Version counters -/

/-- The exclude-prim-paths version after `n` increases, modulo `2 ^ SIZE_WIDTH`. -/
theorem MayaUsdProxyShapeBase.excludePrimPathsVersion_times (self : MayaUsdProxyShapeBase)
    (h : self._excludePrimPathsVersion < 2 ^ SIZE_WIDTH) (n : Nat) :
    (self.increaseExcludePrimPathsVersionTimes n)._excludePrimPathsVersion
      = (self._excludePrimPathsVersion + n) % 2 ^ SIZE_WIDTH := by
  induction n with
  | zero => simp [increaseExcludePrimPathsVersionTimes, Nat.mod_eq_of_lt h]
  | succ n ih =>
    simp only [increaseExcludePrimPathsVersionTimes, _IncreaseExcludePrimPathsVersion, ih]
    rw [Nat.mod_add_mod, Nat.add_assoc]

/-- The stage version after `n` increases, modulo `2 ^ SIZE_WIDTH`. -/
theorem MayaUsdProxyShapeBase.usdStageVersion_times (self : MayaUsdProxyShapeBase)
    (h : self._UsdStageVersion < 2 ^ SIZE_WIDTH) (n : Nat) :
    (self.increaseUsdStageVersionTimes n)._UsdStageVersion
      = (self._UsdStageVersion + n) % 2 ^ SIZE_WIDTH := by
  induction n with
  | zero => simp [increaseUsdStageVersionTimes, Nat.mod_eq_of_lt h]
  | succ n ih =>
    simp only [increaseUsdStageVersionTimes, _IncreaseUsdStageVersion, ih]
    rw [Nat.mod_add_mod, Nat.add_assoc]

/-- C7 (counterexample): a counter that holds the largest `size_t` is `0`
after the next increase, for both counters; and this state is reached from
the initial value `1`: after `SIZE_MAX - 1` increases the counter is
`SIZE_MAX`, after `SIZE_MAX` increases it is `0`. -/
theorem MayaUsdProxyShapeBase.version_counter_wraps :
    ({ MayaUsdProxyShapeBase.fresh with _excludePrimPathsVersion := SIZE_MAX }
      : MayaUsdProxyShapeBase)._IncreaseExcludePrimPathsVersion._excludePrimPathsVersion = 0 ∧
    ({ MayaUsdProxyShapeBase.fresh with _UsdStageVersion := SIZE_MAX }
      : MayaUsdProxyShapeBase)._IncreaseUsdStageVersion._UsdStageVersion = 0 ∧
    (MayaUsdProxyShapeBase.fresh.increaseExcludePrimPathsVersionTimes
      (SIZE_MAX - 1))._excludePrimPathsVersion = SIZE_MAX ∧
    (MayaUsdProxyShapeBase.fresh.increaseExcludePrimPathsVersionTimes
      SIZE_MAX)._excludePrimPathsVersion = 0 := by
  refine ⟨by decide, by decide, ?_, ?_⟩
  · rw [MayaUsdProxyShapeBase.excludePrimPathsVersion_times _ (by decide)]
    decide
  · rw [MayaUsdProxyShapeBase.excludePrimPathsVersion_times _ (by decide)]
    decide

/-- C7 (amended): for every node state whose counter is below the largest
`size_t`, a call of `_IncreaseExcludePrimPathsVersion` (resp.
`_IncreaseUsdStageVersion`) leaves the counter strictly greater, by exactly
one; and starting from a fresh node, whose counters are `1`, the counter
after `n` increases is `1 + n` for every `n < SIZE_MAX`, so it neither
decreases nor wraps over fewer than `SIZE_MAX` increases. -/
theorem MayaUsdProxyShapeBase.version_counter_increases (self : MayaUsdProxyShapeBase)
    (n : Nat) :
    (self._excludePrimPathsVersion < SIZE_MAX →
      self._IncreaseExcludePrimPathsVersion._excludePrimPathsVersion
        = self._excludePrimPathsVersion + 1 ∧
      self._excludePrimPathsVersion
        < self._IncreaseExcludePrimPathsVersion._excludePrimPathsVersion) ∧
    (self._UsdStageVersion < SIZE_MAX →
      self._IncreaseUsdStageVersion._UsdStageVersion = self._UsdStageVersion + 1 ∧
      self._UsdStageVersion < self._IncreaseUsdStageVersion._UsdStageVersion) ∧
    MayaUsdProxyShapeBase.fresh._excludePrimPathsVersion = 1 ∧
    MayaUsdProxyShapeBase.fresh._UsdStageVersion = 1 ∧
    (n < SIZE_MAX →
      (MayaUsdProxyShapeBase.fresh.increaseExcludePrimPathsVersionTimes
        n)._excludePrimPathsVersion = 1 + n ∧
      (MayaUsdProxyShapeBase.fresh.increaseUsdStageVersionTimes n)._UsdStageVersion
        = 1 + n) := by
  have hmax : SIZE_MAX + 1 = 2 ^ SIZE_WIDTH := by decide
  refine ⟨?_, ?_, rfl, rfl, ?_⟩
  · intro h
    have h2 : self._excludePrimPathsVersion + 1 < 2 ^ SIZE_WIDTH := by omega
    simp only [_IncreaseExcludePrimPathsVersion, Nat.mod_eq_of_lt h2]
    exact ⟨trivial, Nat.lt_succ_self _⟩
  · intro h
    have h2 : self._UsdStageVersion + 1 < 2 ^ SIZE_WIDTH := by omega
    simp only [_IncreaseUsdStageVersion, Nat.mod_eq_of_lt h2]
    exact ⟨trivial, Nat.lt_succ_self _⟩
  · intro h
    have h2 : 1 + n < 2 ^ SIZE_WIDTH := by omega
    constructor
    · rw [MayaUsdProxyShapeBase.excludePrimPathsVersion_times _ (by decide)]
      exact Nat.mod_eq_of_lt h2
    · rw [MayaUsdProxyShapeBase.usdStageVersion_times _ (by decide)]
      exact Nat.mod_eq_of_lt h2

/-- C7 (witness): on a fresh node one increase takes each counter from `1`
to `2`, and three increases take it to `4`. -/
theorem MayaUsdProxyShapeBase.version_counter_increases_witness :
    MayaUsdProxyShapeBase.fresh._excludePrimPathsVersion < SIZE_MAX ∧
    MayaUsdProxyShapeBase.fresh._excludePrimPathsVersion
      < MayaUsdProxyShapeBase.fresh._IncreaseExcludePrimPathsVersion._excludePrimPathsVersion ∧
    MayaUsdProxyShapeBase.fresh._UsdStageVersion
      < MayaUsdProxyShapeBase.fresh._IncreaseUsdStageVersion._UsdStageVersion ∧
    (MayaUsdProxyShapeBase.fresh.increaseExcludePrimPathsVersionTimes
      3)._excludePrimPathsVersion = 1 + 3 :=
  ⟨by decide,
   ((MayaUsdProxyShapeBase.version_counter_increases MayaUsdProxyShapeBase.fresh 3).1
      (by decide)).2,
   ((MayaUsdProxyShapeBase.version_counter_increases MayaUsdProxyShapeBase.fresh 3).2.1
      (by decide)).2,
   ((MayaUsdProxyShapeBase.version_counter_increases MayaUsdProxyShapeBase.fresh 3).2.2.2.2
      (by decide)).1⟩

/-! ### The bounding-box cache -/

/-- C9: for every registry state and layer `L`, after `addMutedLayer(L)` the
layer is retained (and so is whatever was retained before); after
`removeMutedLayer(L)` a layer is retained exactly when it is not `L` and was
retained before, so `L` is gone and every other retained layer still is;
after `forgetMutedLayers()` the registry is empty. -/
theorem mutedLayers_registry (layers : MutedLayers) (L : SdfLayerRefPtr) :
    isRetained (addMutedLayer L layers) L = true ∧
    (∀ M, isRetained (addMutedLayer L layers) M = (decide (M = L) || isRetained layers M)) ∧
    isRetained (removeMutedLayer L layers) L = false ∧
    (∀ M, isRetained (removeMutedLayer L layers) M
      = (decide (M ≠ L) && isRetained layers M)) ∧
    forgetMutedLayers layers = [] ∧
    (∀ M, isRetained (forgetMutedLayers layers) M = false) := by
  have hadd : ∀ M, isRetained (addMutedLayer L layers) M
      = (decide (M = L) || isRetained layers M) := by
    intro M
    unfold addMutedLayer isRetained
    by_cases h : L ∈ layers
    · by_cases hm : M = L
      · subst hm; simp [h]
      · simp [h, hm]
    · simp [h]
  have hrem : ∀ M, isRetained (removeMutedLayer L layers) M
      = (decide (M ≠ L) && isRetained layers M) := by
    intro M
    unfold removeMutedLayer isRetained
    by_cases hm : M = L
    · subst hm; simp
    · by_cases h : M ∈ layers <;> simp [h, hm]
  refine ⟨?_, hadd, ?_, hrem, rfl, ?_⟩
  · rw [hadd]; simp
  · rw [hrem]; simp
  · intro M
    simp [forgetMutedLayers, isRetained]

/-! ### The share mode -/

/-- A successful compute leaves a share mode that is not `Unknown`. -/
theorem MayaUsdProxyShapeBase.compute_some_ne_unknown (self : MayaUsdProxyShapeBase)
    (b : Bool) : (self.compute (some b)).1._previousShareMode ≠ ShareMode.Unknown := by
  cases b <;> cases h : self._previousShareMode <;>
    simp [compute, updateShareMode, resolveShareMode, h]

/-- No compute takes the share mode back to `Unknown`. -/
theorem MayaUsdProxyShapeBase.compute_preserves_known (self : MayaUsdProxyShapeBase)
    (c : Option Bool) (h : self._previousShareMode ≠ ShareMode.Unknown) :
    (self.compute c).1._previousShareMode ≠ ShareMode.Unknown := by
  cases c with
  | none => exact h
  | some b => exact self.compute_some_ne_unknown b

/-- A sequence of computes keeps a share mode that is not `Unknown`. -/
theorem MayaUsdProxyShapeBase.computeAll_preserves_known (cs : List (Option Bool)) :
    ∀ (self : MayaUsdProxyShapeBase), self._previousShareMode ≠ ShareMode.Unknown →
      (self.computeAll cs)._previousShareMode ≠ ShareMode.Unknown := by
  induction cs with
  | nil => intro self h; exact h
  | cons c cs ih => intro self h; exact ih _ (self.compute_preserves_known c h)

/-- C10: a freshly constructed node has previous share mode `Unknown`; for
every node whose previous mode is `Unknown` and every successful compute,
to `Shared` or to `Unshared`, the transition runs no transfer and records the
new mode; and after every sequence of computes that holds a successful one
the mode is not `Unknown`, from whatever state the sequence starts. -/
theorem MayaUsdProxyShapeBase.shareMode_first_compute (self : MayaUsdProxyShapeBase)
    (b : Bool) (cs : List (Option Bool)) :
    MayaUsdProxyShapeBase.fresh._previousShareMode = ShareMode.Unknown ∧
    (self._previousShareMode = ShareMode.Unknown →
      (self.compute (some b)).2 = false ∧
      (self.compute (some b)).1._previousShareMode
        = MayaUsdProxyShapeBase.resolveShareMode b ∧
      MayaUsdProxyShapeBase.resolveShareMode b ≠ ShareMode.Unknown) ∧
    ((∃ x, some x ∈ cs) → (self.computeAll cs)._previousShareMode ≠ ShareMode.Unknown) := by
  refine ⟨rfl, ?_, ?_⟩
  · intro h
    cases b <;> simp [compute, updateShareMode, resolveShareMode, h]
  · rintro ⟨x, hx⟩
    induction cs generalizing self with
    | nil => simp at hx
    | cons c cs ih =>
      rw [computeAll]
      rcases List.mem_cons.1 hx with hc | hc
      · subst hc
        exact computeAll_preserves_known cs _ (self.compute_some_ne_unknown x)
      · exact ih _ hc

/-- C10 (witness): on a fresh node the first successful compute, to `Shared`,
runs no transfer; after a failed compute, a compute to `Shared` and one to
`Unshared` the mode is not `Unknown`. -/
theorem MayaUsdProxyShapeBase.shareMode_first_compute_witness :
    (MayaUsdProxyShapeBase.fresh.compute (some true)).2 = false ∧
    (MayaUsdProxyShapeBase.fresh.compute (some true)).1._previousShareMode
      = ShareMode.Shared ∧
    (MayaUsdProxyShapeBase.fresh.computeAll [none, some true, some false])._previousShareMode
      ≠ ShareMode.Unknown :=
  ⟨((MayaUsdProxyShapeBase.shareMode_first_compute MayaUsdProxyShapeBase.fresh true
      [none, some true, some false]).2.1 rfl).1,
   ((MayaUsdProxyShapeBase.shareMode_first_compute MayaUsdProxyShapeBase.fresh true
      [none, some true, some false]).2.1 rfl).2.1,
   (MayaUsdProxyShapeBase.shareMode_first_compute MayaUsdProxyShapeBase.fresh true
      [none, some true, some false]).2.2 ⟨true, by decide⟩⟩

/-! ### The closest-point delegate slot -/

/-- C11: for every process state and delegate `d`, after
`SetClosestPointDelegate(d)` the slot holds `d`; a callable is installed
exactly when it is the one `d` wraps, so whatever was installed before and
is not `d` is gone and at most one delegate is installed; every node
instance consults that same delegate, and the node instances are untouched. -/
theorem SetClosestPointDelegate_single_slot (p : ProxyShapeProcess)
    (d : ClosestPointDelegate) :
    (SetClosestPointDelegate d p)._sharedClosestPointDelegate = d ∧
    (∀ e, e ∈ (SetClosestPointDelegate d p).installed ↔ d = some e) ∧
    (SetClosestPointDelegate d p).installed.length ≤ 1 ∧
    p.installed.length ≤ 1 ∧
    (∀ node : MayaUsdProxyShapeBase,
      node.closestPointDelegate (SetClosestPointDelegate d p) = d) ∧
    (SetClosestPointDelegate d p).nodes = p.nodes := by
  refine ⟨rfl, ?_, ?_, ?_, fun _ => rfl, rfl⟩
  · intro e
    cases d with
    | none => simp [SetClosestPointDelegate, ProxyShapeProcess.installed]
    | some x =>
      simp only [SetClosestPointDelegate, ProxyShapeProcess.installed, Option.toList,
        List.mem_singleton, Option.some.injEq]
      exact eq_comm
  · cases d <;> simp [SetClosestPointDelegate, ProxyShapeProcess.installed, Option.toList]
  · cases h : p._sharedClosestPointDelegate <;>
      simp [ProxyShapeProcess.installed, Option.toList, h]

/-! ### `set` on a holder without attribute -/

/-- On a holder without attribute, `set` of the value `get` produces returns
at once. -/
theorem UsdShaderAttributeHolder.set_eq_of_fallback {σ : Type} (E : Externals σ)
    (self : UsdShaderAttributeHolder) (value : VtValue) (time : UsdTimeCode)
    (stage : σ) (w : WarningState)
    (hinvalid : self.isValid E stage = false)
    (heq : (self.get E VtValue.empty time stage w).2.1 = value) :
    self.set E value time stage w
      = { result := true, holder := self, stage := stage,
          warnings := (self.get E VtValue.empty time stage w).2.2 } := by
  unfold UsdShaderAttributeHolder.set
  simp only [hinvalid, Bool.not_false, if_true, heq]

/-- On a holder without attribute and without valid prim, `set` of another
value than the one `get` produces returns false at once. -/
theorem UsdShaderAttributeHolder.set_eq_of_no_prim {σ : Type} (E : Externals σ)
    (self : UsdShaderAttributeHolder) (value : VtValue) (time : UsdTimeCode)
    (stage : σ) (w : WarningState)
    (hinvalid : self.isValid E stage = false)
    (hprim : E.primIsValid stage self.usdPrim = false)
    (hdiff : (self.get E VtValue.empty time stage w).2.1 ≠ value) :
    self.set E value time stage w
      = { result := false, holder := self, stage := stage,
          warnings := (self.get E VtValue.empty time stage w).2.2 } := by
  unfold UsdShaderAttributeHolder.set
  simp only [hinvalid, Bool.not_false, if_true, if_neg hdiff, hprim]
  rfl

/-- C12: for every holder whose underlying attribute does not exist, if the
value passed to `set` equals the value `get` produces at that time, then
`set` returns true, the holder and the stage are as they were, so no
attribute was created, nothing was written and the holder is still not
valid; the outcome is the same whatever `CreateInput`, `CreateOutput` and
the base `set` would do (they are not called) and whether or not the prim is
valid (there is no assumption on it). -/
theorem UsdShaderAttributeHolder.set_fallback_value_noop {σ : Type} (E : Externals σ)
    (self : UsdShaderAttributeHolder) (value : VtValue) (time : UsdTimeCode)
    (stage : σ) (w : WarningState)
    (hinvalid : self.isValid E stage = false)
    (heq : (self.get E VtValue.empty time stage w).2.1 = value) :
    (self.set E value time stage w).result = true ∧
    (self.set E value time stage w).holder = self ∧
    (self.set E value time stage w).stage = stage ∧
    (self.set E value time stage w).holder.isValid E
      (self.set E value time stage w).stage = false ∧
    (self.set E value time stage w).warnings
      = (self.get E VtValue.empty time stage w).2.2 ∧
    (∀ (ci co : σ → UsdPrim → TfToken → SdfValueTypeName → σ × UsdAttribute)
        (bs : σ → UsdAttribute → VtValue → UsdTimeCode → Bool × σ)
        (pv : σ → UsdPrim → Bool),
      (self.set { E with CreateInput := ci, CreateOutput := co, baseSet := bs,
                         primIsValid := pv } value time stage w).stage = stage ∧
      (self.set { E with CreateInput := ci, CreateOutput := co, baseSet := bs,
                         primIsValid := pv } value time stage w).holder = self ∧
      (self.set { E with CreateInput := ci, CreateOutput := co, baseSet := bs,
                         primIsValid := pv } value time stage w).result = true) := by
  have hset := set_eq_of_fallback E self value time stage w hinvalid heq
  refine ⟨?_, ?_, ?_, ?_, ?_, ?_⟩
  · rw [hset]
  · rw [hset]
  · rw [hset]
  · rw [hset]; exact hinvalid
  · rw [hset]
  · intro ci co bs pv
    have hset2 := set_eq_of_fallback
      { E with CreateInput := ci, CreateOutput := co, baseSet := bs, primIsValid := pv }
      self value time stage w hinvalid heq
    rw [hset2]
    exact ⟨rfl, rfl, rfl⟩

/-- C12 (witness): on a stage without any prim, setting the input `x` to its
default `0.5` returns true and leaves the stage without attribute. -/
theorem UsdShaderAttributeHolder.set_fallback_value_noop_witness :
    (demoHolder demoPrim "x").isValid (listExternals "0.5") emptyStage = false ∧
    (listExternals "0.5").primIsValid emptyStage (demoHolder demoPrim "x").usdPrim = false ∧
    ((demoHolder demoPrim "x").set (listExternals "0.5") (VtValue.holding "float" "0.5") 0
      emptyStage WarningState.initial).result = true ∧
    ((demoHolder demoPrim "x").set (listExternals "0.5") (VtValue.holding "float" "0.5") 0
      emptyStage WarningState.initial).stage = emptyStage :=
  have h := UsdShaderAttributeHolder.set_fallback_value_noop (listExternals "0.5")
    (demoHolder demoPrim "x") (VtValue.holding "float" "0.5") 0 emptyStage
    WarningState.initial (by decide) (by decide)
  ⟨by decide, by decide, h.1, h.2.2.1⟩

/-- C13: for every holder whose underlying attribute does not exist and whose
prim is invalid, and for every value that differs from the value `get`
produces, `set` returns false and the holder and the stage are as they were:
no attribute was created and nothing was written, whatever `CreateInput`,
`CreateOutput` and the base `set` would do (they are not called); and
`isEditAllowedMsg` says that editing is not allowed. -/
theorem UsdShaderAttributeHolder.set_fails_without_prim {σ : Type} (E : Externals σ)
    (self : UsdShaderAttributeHolder) (value : VtValue) (time : UsdTimeCode)
    (stage : σ) (w : WarningState)
    (hinvalid : self.isValid E stage = false)
    (hprim : E.primIsValid stage self.usdPrim = false)
    (hdiff : (self.get E VtValue.empty time stage w).2.1 ≠ value) :
    (self.set E value time stage w).result = false ∧
    (self.set E value time stage w).holder = self ∧
    (self.set E value time stage w).stage = stage ∧
    (self.set E value time stage w).holder.isValid E
      (self.set E value time stage w).stage = false ∧
    (∀ (ci co : σ → UsdPrim → TfToken → SdfValueTypeName → σ × UsdAttribute)
        (bs : σ → UsdAttribute → VtValue → UsdTimeCode → Bool × σ),
      (self.set { E with CreateInput := ci, CreateOutput := co, baseSet := bs }
        value time stage w).result = false ∧
      (self.set { E with CreateInput := ci, CreateOutput := co, baseSet := bs }
        value time stage w).holder = self ∧
      (self.set { E with CreateInput := ci, CreateOutput := co, baseSet := bs }
        value time stage w).stage = stage) ∧
    self.isEditAllowedMsg E stage = "Editing is not allowed." := by
  have hset := set_eq_of_no_prim E self value time stage w hinvalid hprim hdiff
  refine ⟨?_, ?_, ?_, ?_, ?_, ?_⟩
  · rw [hset]
  · rw [hset]
  · rw [hset]
  · rw [hset]; exact hinvalid
  · intro ci co bs
    have hset2 := set_eq_of_no_prim
      { E with CreateInput := ci, CreateOutput := co, baseSet := bs }
      self value time stage w hinvalid hprim hdiff
    rw [hset2]
    exact ⟨rfl, rfl, rfl⟩
  · have hv : E.baseIsValid stage self._usdAttr = false := hinvalid
    simp [UsdShaderAttributeHolder.isEditAllowedMsg, hv, hprim]

/-- C13 (witness): on a stage without any prim, setting the input `x`, whose
default is `0.5`, to `0.7` returns false and leaves the stage as it was. -/
theorem UsdShaderAttributeHolder.set_fails_without_prim_witness :
    (demoHolder demoPrim "x").isValid (listExternals "0.5") emptyStage = false ∧
    (listExternals "0.5").primIsValid emptyStage (demoHolder demoPrim "x").usdPrim = false ∧
    ((demoHolder demoPrim "x").get (listExternals "0.5") VtValue.empty 0 emptyStage
      WarningState.initial).2.1 ≠ VtValue.holding "float" "0.7" ∧
    ((demoHolder demoPrim "x").set (listExternals "0.5") (VtValue.holding "float" "0.7") 0
      emptyStage WarningState.initial).result = false ∧
    ((demoHolder demoPrim "x").set (listExternals "0.5") (VtValue.holding "float" "0.7") 0
      emptyStage WarningState.initial).stage = emptyStage :=
  have h := UsdShaderAttributeHolder.set_fails_without_prim (listExternals "0.5")
    (demoHolder demoPrim "x") (VtValue.holding "float" "0.7") 0 emptyStage
    WarningState.initial (by decide) (by decide) (by decide)
  ⟨by decide, by decide, by decide, h.1, h.2.2.1⟩

/-! ### Matrix3d properties -/

/-- C14: for every holder whose property type is `Matrix3d`, `defaultValue()`
is not empty: it is the default of the definition when that is not empty and
the nine-zero string otherwise; consequently `hasValue()` is true, and `get`
leaves the warning state as it was, so it records no missing-default
warning, on an unauthored attribute in particular. -/
theorem UsdShaderAttributeHolder.matrix3d_has_default {σ : Type} (E : Externals σ)
    (self : UsdShaderAttributeHolder) (value : VtValue) (time : UsdTimeCode)
    (stage : σ) (w : WarningState)
    (hty : self._sdrProp.type = Matrix3dToken) :
    self.defaultValue E ≠ "" ∧
    self.defaultValue E
      = (if E.attrDefDefaultValue self._sdrProp = "" then "0,0,0,0,0,0,0,0,0"
         else E.attrDefDefaultValue self._sdrProp) ∧
    self.hasValue E stage = true ∧
    (self.get E value time stage w).2.2 = w ∧
    (self.isAuthored E stage = false →
      (self.get E value time stage w).2.2.s_ListPropertiesWithoutDefaultValue
        = w.s_ListPropertiesWithoutDefaultValue ∧
      (self.get E value time stage w).2.2.log = w.log) := by
  have hdef : self.defaultValue E
      = (if E.attrDefDefaultValue self._sdrProp = "" then "0,0,0,0,0,0,0,0,0"
         else E.attrDefDefaultValue self._sdrProp) := by
    simp [UsdShaderAttributeHolder.defaultValue, hty, strEmpty]
  have hne : self.defaultValue E ≠ "" := by
    rw [hdef]
    split
    · decide
    · assumption
  have hget : (self.get E value time stage w).2.2 = w := by
    unfold UsdShaderAttributeHolder.get
    split
    · rfl
    · simp [strEmpty, hne]
  refine ⟨hne, hdef, ?_, hget, ?_⟩
  · simp [UsdShaderAttributeHolder.hasValue, strEmpty, hne]
  · intro _
    rw [hget]
    exact ⟨rfl, rfl⟩

/-- C14 (witness): the `matrix3d` input `m`, whose definition has no default,
has the nine-zero default, has a value, and `get` on it logs nothing. -/
theorem UsdShaderAttributeHolder.matrix3d_has_default_witness :
    (matrixHolder demoPrim "m")._sdrProp.type = Matrix3dToken ∧
    (matrixHolder demoPrim "m").isAuthored (listExternals "") demoStage = false ∧
    (matrixHolder demoPrim "m").defaultValue (listExternals "") = "0,0,0,0,0,0,0,0,0" ∧
    (matrixHolder demoPrim "m").hasValue (listExternals "") demoStage = true ∧
    ((matrixHolder demoPrim "m").get (listExternals "") VtValue.empty 0 demoStage
      WarningState.initial).2.2 = WarningState.initial :=
  have h := UsdShaderAttributeHolder.matrix3d_has_default (listExternals "")
    (matrixHolder demoPrim "m") VtValue.empty 0 demoStage WarningState.initial rfl
  ⟨rfl, by decide, h.2.1, h.2.2.1, h.2.2.2.1⟩

/-! ### Enum options -/

/-- A loop that pushes `f x` at the back for every `x` of a list appends the
image of the list. -/
theorem foldl_push_back {α β : Type} (f : α → β) (l : List α) :
    ∀ init : List β, l.foldl (fun retVal x => retVal ++ [f x]) init = init ++ l.map f := by
  induction l with
  | nil => intro init; simp
  | cons a l ih =>
    intro init
    simp only [List.foldl_cons, ih, List.map_cons, List.append_assoc, List.singleton_append]

/-- C15: for every holder, `getEnums()` is the enum list of the base holder
followed by the options of the property definition in their order, so its
length is the sum of both lengths and nothing is dropped or de-duplicated;
`getEnumValues()` is the list of the first components of `getEnums()`, in
the same order and of the same length. -/
theorem UsdShaderAttributeHolder.getEnums_base_then_options {σ : Type} (E : Externals σ)
    (self : UsdShaderAttributeHolder) (stage : σ) :
    self.getEnums E stage = E.baseGetEnums stage self._usdAttr ++ self._sdrProp.options ∧
    (self.getEnums E stage).length
      = (E.baseGetEnums stage self._usdAttr).length + self._sdrProp.options.length ∧
    self.getEnumValues E stage = (self.getEnums E stage).map Prod.fst ∧
    self.getEnumValues E stage
      = (E.baseGetEnums stage self._usdAttr).map Prod.fst
        ++ self._sdrProp.options.map Prod.fst ∧
    (self.getEnumValues E stage).length = (self.getEnums E stage).length := by
  have henums : self.getEnums E stage
      = E.baseGetEnums stage self._usdAttr ++ self._sdrProp.options := by
    unfold UsdShaderAttributeHolder.getEnums
    rw [foldl_push_back (fun option : TfToken × TfToken => (option.1, option.2))]
    simp
  have hvalues : self.getEnumValues E stage = (self.getEnums E stage).map Prod.fst := by
    unfold UsdShaderAttributeHolder.getEnumValues
    rw [foldl_push_back (fun option : String × String => option.1)]
    simp
  refine ⟨henums, ?_, hvalues, ?_, ?_⟩
  · rw [henums, List.length_append]
  · rw [hvalues, henums, List.map_append]
  · rw [hvalues, List.length_map]

end MayaUsd
